import Mathlib

/-!
Shallow embedding of the kubesail backend core (port-forward registry,
shell session manager, database connection manager) and proofs of the
specification claims about it.

The registries in the source are `HashMap<String, _>` guarded by locks;
they are modelled here as key-unique association lists, with insertion
replacing any previous binding (as `HashMap::insert` does) and removal
erasing every binding for the key (a `HashMap` holds at most one).
External effects (subprocess spawn, `try_wait`, `kill`, pool acquisition,
SQL queries) are modelled by explicit environment parameters, and each
operation returns its result together with the updated registry state.
-/

/-- Association-list lookup is `List.lookup`; removal erases every binding
for the key, matching `HashMap::remove` on a key-unique map. -/
def eraseKey {β : Type} (l : List (String × β)) (k : String) : List (String × β) :=
  l.filter (fun p => p.1 ≠ k)

/-- `HashMap::insert`: the new binding replaces any previous one. -/
def insertKey {β : Type} (l : List (String × β)) (k : String) (v : β) :
    List (String × β) :=
  (k, v) :: eraseKey l k

/-- `HashMap::contains_key`. -/
def containsKey {β : Type} (l : List (String × β)) (k : String) : Bool :=
  (l.lookup k).isSome

/-- Number of bindings for a key (1 or 0 on a key-unique map). -/
def countKey {β : Type} (l : List (String × β)) (k : String) : Nat :=
  (l.filter (fun p => p.1 = k)).length

/-- `types/mod.rs` `PortForwardInfo` (the `namespace` field is `ns` here,
`namespace` being reserved in Lean). -/
structure PortForwardInfo where
  id : String
  resource_type : String
  resource_name : String
  ns : String
  local_port : Nat
  remote_port : Nat
  status : String
deriving DecidableEq, Repr

/-- `portforward.rs` `PortForwardHandle`: the stored info plus the optional
subprocess, identified by an abstract pid. -/
structure PortForwardHandle where
  info : PortForwardInfo
  process : Option Nat
deriving DecidableEq, Repr

/-- The `PortForwardManager.forwards` map. -/
abbrev Registry := List (String × PortForwardHandle)

/-- Errors surfaced by the port-forward registry (`anyhow` messages in the
source, distinguished here by their origin). -/
inductive PFError where
  | alreadyExists
  | spawnFailed
  | killFailed
  | notFound
deriving DecidableEq, Repr

/-- Result of `Child::try_wait`: exited (`Ok(Some(_))`), still running
(`Ok(None)`), or an error checking status (`Err(_)`). -/
inductive TryWaitResult where
  | exited
  | running
  | waitErr
deriving DecidableEq, Repr

/-- The session id derivation in `start_port_forward`:
`format!("{}-{}-{}-{}", resource_type, namespace, resource_name, local_port)`. -/
def mkForwardId (resource_type ns resource_name : String) (local_port : Nat) : String :=
  resource_type ++ "-" ++ ns ++ "-" ++ resource_name ++ "-" ++ toString local_port

/-- `PortForwardManager::start_port_forward`. `spawn` models the outcome of
spawning `kubectl port-forward` (`none` = spawn error). Returns the result,
the updated registry, and whether a spawn was attempted at all. -/
def start_port_forward (spawn : Option Nat) (st : Registry)
    (resource_type resource_name ns : String) (local_port remote_port : Nat) :
    Except PFError PortForwardInfo × Registry × Bool :=
  let id := mkForwardId resource_type ns resource_name local_port
  if containsKey st id then
    (.error .alreadyExists, st, false)
  else
    match spawn with
    | none => (.error .spawnFailed, st, true)
    | some pid =>
      let info : PortForwardInfo :=
        { id := id
          resource_type := resource_type
          resource_name := resource_name
          ns := ns
          local_port := local_port
          remote_port := remote_port
          status := "running" }
      (.ok info, insertKey st id ⟨info, some pid⟩, true)

/-- `PortForwardManager::stop_port_forward`: the entry is removed before the
kill; a kill failure is propagated but the removal stands. -/
def stop_port_forward (killOk : Nat → Bool) (st : Registry) (id : String) :
    Except PFError Unit × Registry :=
  match st.lookup id with
  | some handle =>
    let st' := eraseKey st id
    match handle.process with
    | some pid => if killOk pid then (.ok (), st') else (.error .killFailed, st')
    | none => (.ok (), st')
  | none => (.error .notFound, st)

/-- The retain predicate of `list_port_forwards`: keep the entry only when
`try_wait` reports the subprocess still running. -/
def handleAlive (tryWait : Nat → TryWaitResult) (h : PortForwardHandle) : Bool :=
  match h.process with
  | some pid =>
    match tryWait pid with
    | .running => true
    | .exited => false
    | .waitErr => false
  | none => false

/-- `PortForwardManager::list_port_forwards`: prune dead entries, then
return the infos of the survivors. -/
def list_port_forwards (tryWait : Nat → TryWaitResult) (st : Registry) :
    List PortForwardInfo × Registry :=
  let st' := st.filter (fun p => handleAlive tryWait p.2)
  (st'.map (fun p => p.2.info), st')

/-! ## Shell session manager (`shell.rs`) -/

/-- One entry of `PodStatus.container_statuses`. -/
structure ContainerStatus where
  name : String
  ready : Bool
deriving DecidableEq, Repr

/-- One entry of `PodSpec.containers` (only the name is consulted). -/
structure Container where
  name : String
deriving DecidableEq, Repr

/-- The parts of `k8s_openapi` `PodStatus` that `start_session` reads. -/
structure PodStatus where
  phase : Option String
  container_statuses : Option (List ContainerStatus)
deriving DecidableEq, Repr

/-- The parts of `PodSpec` that `start_session` reads. -/
structure PodSpec where
  containers : List Container
deriving DecidableEq, Repr

/-- The parts of a `Pod` that `start_session` reads. -/
structure Pod where
  status : Option PodStatus
  spec : Option PodSpec
deriving DecidableEq, Repr

/-- `ShellManager` state: `sessions` maps a session id to its task handle
(abstracted to a presence flag) and `stdin_senders` maps it to the inbound
channel sender (abstracted to a token tested by the send environment). -/
structure ShellState where
  sessions : List (String × Bool)
  stdin_senders : List (String × Nat)
deriving DecidableEq, Repr

/-- Errors surfaced by the shell manager, by origin of the `anyhow` bail. -/
inductive ShellError where
  | notRunning
  | noContainers
  | containerNotReady
  | execFailed
  | sendFailed
  | sessionNotFound
deriving DecidableEq, Repr

/-- `pod.status.and_then(phase).map(as_str).unwrap_or("Unknown")`. -/
def podPhase (pod : Pod) : String :=
  ((pod.status.bind fun s => s.phase).getD "Unknown")

/-- Target container choice: the caller's, else the pod's first container. -/
def resolveContainer (pod : Pod) (container : Option String) : Option String :=
  match container with
  | some c => some c
  | none => (pod.spec.bind fun spec => spec.containers.head?).map fun c => c.name

/-- `container_ready`: the named status entry's `ready`, defaulting false. -/
def containerReady (pod : Pod) (target : String) : Bool :=
  (((pod.status.bind fun s => s.container_statuses).bind fun statuses =>
    (statuses.find? fun cs => cs.name = target).map fun cs => cs.ready).getD false)

/-- The ordered shell candidates: the override alone, else the built-ins. -/
def shellsToTry (shell : Option String) : List String :=
  match shell with
  | some s => [s]
  | none => ["/bin/bash", "/bin/sh", "/bin/ash"]

/-- Sequential exec attempts: returns the list of commands actually tried
(the trace of calls to `pods.exec`) and whether one succeeded. -/
def tryShells (execOk : String → Bool) : List String → List String × Bool
  | [] => ([], false)
  | s :: rest =>
    if execOk s then ([s], true)
    else
      let r := tryShells execOk rest
      (s :: r.1, r.2)

/-- `ShellManager::start_session` after the pod has been fetched: phase and
readiness validation, then the exec attempts, then registration of the
stdin sender and the session handle. `execOk` models `pods.exec`; the third
component is the trace of exec attempts (empty when validation fails, so the
attach collaborator was never invoked). The random `session_id` is a
parameter. -/
def start_session (execOk : String → Bool) (st : ShellState) (session_id : String)
    (pod : Pod) (container : Option String) (shell : Option String) :
    Except ShellError String × ShellState × List String :=
  if podPhase pod = "Running" then
    match resolveContainer pod container with
    | none => (.error .noContainers, st, [])
    | some target_container =>
      if containerReady pod target_container then
        let r := tryShells execOk (shellsToTry shell)
        if r.2 then
          let st1 : ShellState :=
            { st with stdin_senders := insertKey st.stdin_senders session_id 0 }
          let st2 : ShellState :=
            { st1 with sessions := insertKey st1.sessions session_id true }
          (.ok session_id, st2, r.1)
        else
          (.error .execFailed, st, r.1)
      else
        (.error .containerNotReady, st, [])
  else
    (.error .notRunning, st, [])

/-- `ShellManager::send_input`: look up the live sender and send; no sender
means the bail `"Shell session not found"`. -/
def send_input (sendOk : Nat → Bool) (st : ShellState) (session_id : String)
    (data : String) : Except ShellError Unit :=
  match st.stdin_senders.lookup session_id with
  | some sender =>
    if sendOk sender then .ok () else .error .sendFailed
  | none => .error .sessionNotFound

/-- `ShellManager::close_session`: remove the stdin sender, then abort and
remove the session handle; always returns `Ok(())`. -/
def close_session (st : ShellState) (session_id : String) :
    Except ShellError Unit × ShellState :=
  let st1 : ShellState :=
    { st with stdin_senders := eraseKey st.stdin_senders session_id }
  let st2 : ShellState :=
    { st1 with sessions := eraseKey st1.sessions session_id }
  (.ok (), st2)

/-! ## Database connection manager (`database/`) -/

/-- `database/mod.rs` `DatabaseError` variants reached by the embedded
operations. -/
inductive DatabaseError where
  | ConfigError
  | PoolError
  | PostgresError
  | PortForwardError
deriving DecidableEq, Repr

/-- `database/portforward.rs` `DatabasePortForward`. -/
structure DatabasePortForward where
  connection_id : String
  port_forward_id : String
  local_port : Nat
  ns : String
  service_name : String
  remote_port : Nat
deriving DecidableEq, Repr

/-- `database/mod.rs` `DbConnectionInfo`. -/
structure DbConnectionInfo where
  connection_id : String
  cluster_name : String
  ns : String
  database : String
  local_port : Nat
deriving DecidableEq, Repr

/-- `database/connection.rs` `DatabaseConnection` (the pool object itself is
abstracted away; its behaviour lives in the environment below). -/
structure DatabaseConnection where
  info : DbConnectionInfo
  port_forward : DatabasePortForward
deriving DecidableEq, Repr

/-- Environment for `DatabaseConnection::create`: the ephemeral port picked
by `find_free_port` (`none` = bind error), the `kubectl` spawn outcome, and
whether pool creation, pool acquisition and the `SELECT 1` test succeed. -/
structure ConnectEnv where
  freePort : Option Nat
  spawn : Option Nat
  poolCreateOk : Bool
  poolGetOk : Bool
  queryOk : Bool
deriving DecidableEq, Repr

/-- `DatabasePortForward::create`: derive `{cluster_name}-rw`, fix remote
port 5432, pick a free local port, then delegate to `start_port_forward`
with resource type `"service"`, mapping any failure to `PortForwardError`. -/
def DatabasePortForward.create (env : ConnectEnv) (st : Registry)
    (cluster_name ns : String) (connection_id : String) :
    Except DatabaseError DatabasePortForward × Registry :=
  let service_name := cluster_name ++ "-rw"
  let remote_port := 5432
  match env.freePort with
  | none => (.error .PortForwardError, st)
  | some local_port =>
    let r := start_port_forward env.spawn st "service" service_name ns local_port remote_port
    match r.1 with
    | .error _ => (.error .PortForwardError, r.2.1)
    | .ok pf_info =>
      (.ok { connection_id := connection_id
             port_forward_id := pf_info.id
             local_port := local_port
             ns := ns
             service_name := service_name
             remote_port := remote_port }, r.2.1)

/-- `DatabasePortForward::stop`: delegate to `stop_port_forward`, mapping
any failure to `PortForwardError`. -/
def DatabasePortForward.stop (killOk : Nat → Bool) (st : Registry)
    (port_forward_id : String) : Except DatabaseError Unit × Registry :=
  let r := stop_port_forward killOk st port_forward_id
  ((match r.1 with
    | .error _ => Except.error DatabaseError.PortForwardError
    | .ok _ => Except.ok ()), r.2)

/-- `DatabaseConnection::create`: port-forward first, then (after the settle
sleep, which has no observable effect here) pool creation, one pooled client
acquisition and the `SELECT 1` readiness query; any failure after the
port-forward step returns the error with the registry as the port-forward
step left it. The random uuid `connection_id` is a parameter; `username` and
`password` only feed the pool config. -/
def DatabaseConnection.create (env : ConnectEnv) (st : Registry)
    (cluster_name ns database username password : String)
    (connection_id : String) :
    Except DatabaseError DatabaseConnection × Registry :=
  let r := DatabasePortForward.create env st cluster_name ns connection_id
  match r.1 with
  | .error e => (.error e, r.2)
  | .ok port_forward =>
    if env.poolCreateOk = false then
      (.error .ConfigError, r.2)
    else if env.poolGetOk = false then
      (.error .PoolError, r.2)
    else if env.queryOk = false then
      (.error .PostgresError, r.2)
    else
      let info : DbConnectionInfo :=
        { connection_id := connection_id
          cluster_name := cluster_name
          ns := ns
          database := database
          local_port := port_forward.local_port }
      (.ok { info := info, port_forward := port_forward }, r.2)

/-- Teardown effects issued by `DatabaseConnection::close`, in order. -/
inductive TeardownEffect where
  | poolClose
  | pfStop (id : String)
deriving DecidableEq, Repr

/-- `DatabaseConnection::close`: `self.pool.close()` (infallible) is issued
first, then `DatabasePortForward::stop`; both effects are always issued, in
that order, and a stop failure is propagated after the fact. The third
component is the ordered effect trace. -/
def DatabaseConnection.close (killOk : Nat → Bool) (st : Registry)
    (conn : DatabaseConnection) :
    Except DatabaseError Unit × Registry × List TeardownEffect :=
  let r := DatabasePortForward.stop killOk st conn.port_forward.port_forward_id
  (r.1, r.2,
    [TeardownEffect.poolClose, TeardownEffect.pfStop conn.port_forward.port_forward_id])

/-- `DatabaseConnection::health_check`: pool acquisition failure and query
failure both yield `Ok(false)`; success yields `Ok(true)`; no state is
touched (the embedding takes no registry and returns none). -/
def DatabaseConnection.health_check (conn : DatabaseConnection)
    (poolGetOk queryOk : Bool) : Except DatabaseError Bool :=
  match poolGetOk with
  | true =>
    match queryOk with
    | true => .ok true
    | false => .ok false
  | false => .ok false

/-! ## SQL identifier quoting (`database/queries.rs`) -/

/-- Character-level form of `identifier.replace("\"", "\"\"")` (for the
single-character pattern `"`, `str::replace` doubles each occurrence). -/
def escapeQuotes : List Char → List Char
  | [] => []
  | c :: rest =>
    if c = '"' then '"' :: '"' :: escapeQuotes rest
    else c :: escapeQuotes rest

/-- `quote_identifier`: `format!("\"{}\"", identifier.replace("\"", "\"\""))`. -/
def quote_identifier (identifier : String) : String :=
  "\"" ++ String.mk (escapeQuotes identifier.data) ++ "\""

/-- How a SQL reader scans the body of a double-quoted identifier: a doubled
quote is a literal quote character, a single quote closes the identifier,
returning the identifier's characters and the unconsumed remainder; no
closing quote is a scan failure. -/
def scanQuoted : List Char → Option (List Char × List Char)
  | [] => none
  | c :: rest =>
    if c = '"' then
      match rest with
      | '"' :: rest' => (scanQuoted rest').map fun r => ('"' :: r.1, r.2)
      | _ => some ([], rest)
    else
      (scanQuoted rest).map fun r => (c :: r.1, r.2)

/-- Parse a double-quoted identifier at the head of the input. -/
def parseQuoted (s : List Char) : Option (List Char × List Char) :=
  match s with
  | '"' :: rest => scanQuoted rest
  | _ => none

/-! ## Concrete fixtures used by the witness theorems -/

/-- Concrete registry holding the session for
`("service", "default", "pg-rw", 15432)`. -/
def c2Reg : Registry :=
  [("service-default-pg-rw-15432",
    ⟨⟨"service-default-pg-rw-15432", "service", "pg-rw", "default",
      15432, 5432, "running"⟩, some 3⟩)]

/-- Concrete registry with the single session `"a"` whose subprocess is
pid 2. -/
def c5Reg : Registry :=
  [("a", ⟨⟨"a", "service", "x", "default", 1000, 2000, "running"⟩, some 2⟩)]

/-- The handle registered under `"a"` in `c5Reg`. -/
def c5Handle : PortForwardHandle :=
  ⟨⟨"a", "service", "x", "default", 1000, 2000, "running"⟩, some 2⟩

/-- Concrete shell state with one live session `"s"`. -/
def c6State : ShellState := ⟨[("s", true)], [("s", 5)]⟩

/-- A pod stuck in `Pending` whose only container is not ready. -/
def pendingPod : Pod :=
  ⟨some ⟨some "Pending", some [⟨"app", false⟩]⟩, some ⟨[⟨"app"⟩]⟩⟩

/-- The handle of the dead session used in the C4 witness. -/
def c4Handle : PortForwardHandle :=
  ⟨⟨"id1", "pod", "web", "default", 8080, 80, "running"⟩, some 5⟩

/-- Registry holding only the dead session `"id1"`. -/
def c4Reg : Registry := [("id1", c4Handle)]

/-! ## Theorems -/

/-- C1: the spec requires that a failure of the readiness test inside
`connect` unwinds the already-created port-forward, so that the registry
holds no entry from that call. The code does not: with the port-forward
established (pid 7) and the `SELECT 1` readiness query failing,
`DatabaseConnection::create` returns the error while the registry still
holds the entry `service-default-pgcluster-rw-54321`, and `list` (with the
tunnel subprocess still running) still reports it — the tunnel is leaked,
contradicting the claim. -/
theorem C1_connect_failure_leaks_tunnel :
    (DatabaseConnection.create ⟨some 54321, some 7, true, true, false⟩ []
        "pgcluster" "default" "appdb" "user" "pw" "cid").1
      = Except.error DatabaseError.PostgresError ∧
    containsKey
      (DatabaseConnection.create ⟨some 54321, some 7, true, true, false⟩ []
        "pgcluster" "default" "appdb" "user" "pw" "cid").2
      "service-default-pgcluster-rw-54321" = true ∧
    (list_port_forwards (fun _ => TryWaitResult.running)
      (DatabaseConnection.create ⟨some 54321, some 7, true, true, false⟩ []
        "pgcluster" "default" "appdb" "user" "pw" "cid").2).1.length = 1 := by
  refine ⟨rfl, rfl, rfl⟩

/-- C3: for every registered `DatabaseConnection`, the teardown effect
trace of `close` is exactly pool-close followed by the stop of the owned
port-forward: the pool-close call strictly precedes the port-forward stop
call, whatever the kill outcome and registry state. -/
theorem C3_close_pool_before_tunnel (killOk : Nat → Bool) (st : Registry)
    (conn : DatabaseConnection) :
    (DatabaseConnection.close killOk st conn).2.2 =
      [TeardownEffect.poolClose,
       TeardownEffect.pfStop conn.port_forward.port_forward_id] := rfl

/-- C8: `health_check` always returns a boolean and never an error: the
result is `Ok(true)` exactly when both the pool acquisition and the trivial
query succeed, and `Ok(false)` whenever either fails; the embedding takes
and returns no registry state, reflecting that the probe mutates nothing. -/
theorem C8_health_check_never_errors (conn : DatabaseConnection)
    (poolGetOk queryOk : Bool) :
    DatabaseConnection.health_check conn poolGetOk queryOk =
      Except.ok (poolGetOk && queryOk) := by
  cases poolGetOk <;> cases queryOk <;> rfl

/-- C10: the hyphen-joined id derivation is not injective: the distinct
tuples `("service", "default", "a-b", 80)` and
`("service", "default-a", "b", 80)` derive the same id, and a first-ever
`start` for the second tuple is rejected with `AlreadyExists` (with no
subprocess spawned) against the session registered for the first. -/
theorem C10_forward_id_collision :
    mkForwardId "service" "default" "a-b" 80
      = mkForwardId "service" "default-a" "b" 80 ∧
    (("service", "default", "a-b", (80 : Nat))
      ≠ ("service", "default-a", "b", (80 : Nat))) ∧
    (start_port_forward (some 2)
        (start_port_forward (some 1) [] "service" "a-b" "default" 80 5432).2.1
        "service" "b" "default-a" 80 9999).1 = Except.error PFError.alreadyExists ∧
    (start_port_forward (some 2)
        (start_port_forward (some 1) [] "service" "a-b" "default" 80 5432).2.1
        "service" "b" "default-a" 80 9999).2.2 = false := by
  refine ⟨rfl, by decide, rfl, rfl⟩

/-! ## Helper lemmas on the association-list registry model -/

theorem lookup_eraseKey {β : Type} (l : List (String × β)) (k : String) :
    (eraseKey l k).lookup k = none := by
  induction l with
  | nil => rfl
  | cons p rest ih =>
    obtain ⟨a, b⟩ := p
    by_cases h : a = k
    · simpa [eraseKey, List.filter_cons, h] using ih
    · have hba : (k == a) = false := by simp [Ne.symm h]
      simpa [eraseKey, List.filter_cons, h, List.lookup, hba] using ih

theorem countKey_eraseKey {β : Type} (l : List (String × β)) (k : String) :
    countKey (eraseKey l k) k = 0 := by
  induction l with
  | nil => rfl
  | cons p rest ih =>
    by_cases h : p.1 = k
    · simpa [countKey, eraseKey, List.filter_cons, h] using ih
    · simpa [countKey, eraseKey, List.filter_cons, h] using ih

theorem countKey_insertKey {β : Type} (l : List (String × β)) (k : String) (v : β) :
    countKey (insertKey l k v) k = 1 := by
  have h0 := countKey_eraseKey l k
  simp only [countKey, insertKey, List.filter_cons] at *
  simp [h0]

/-- C2: for every tuple, `start` on an already-registered derived id fails
with `AlreadyExists`, attempts no spawn, and returns the registry unchanged
(so exactly the one existing session for that id remains); a first `start`
for an unregistered id registers exactly one entry for the id and returns a
descriptor whose local and remote ports equal the arguments and whose
status is `"running"`. -/
theorem C2_start_idempotent_per_tuple (spawn : Option Nat) (pid : Nat)
    (st : Registry) (resource_type resource_name ns : String)
    (local_port remote_port : Nat) :
    (containsKey st (mkForwardId resource_type ns resource_name local_port) = true →
      start_port_forward spawn st resource_type resource_name ns local_port remote_port
        = (Except.error PFError.alreadyExists, st, false)) ∧
    (containsKey st (mkForwardId resource_type ns resource_name local_port) = false →
      ∃ info,
        (start_port_forward (some pid) st resource_type resource_name ns
            local_port remote_port).1 = Except.ok info ∧
        info.local_port = local_port ∧
        info.remote_port = remote_port ∧
        info.status = "running" ∧
        countKey (start_port_forward (some pid) st resource_type resource_name ns
            local_port remote_port).2.1
          (mkForwardId resource_type ns resource_name local_port) = 1 ∧
        (start_port_forward (some pid) st resource_type resource_name ns
            local_port remote_port).2.2 = true) := by
  constructor
  · intro h
    simp [start_port_forward, h]
  · intro h
    refine ⟨{ id := mkForwardId resource_type ns resource_name local_port
              resource_type := resource_type
              resource_name := resource_name
              ns := ns
              local_port := local_port
              remote_port := remote_port
              status := "running" }, ?_, rfl, rfl, rfl, ?_, ?_⟩ <;>
      simp [start_port_forward, h, countKey_insertKey]

/-- Witness for C2: with the session for
`("service", "default", "pg-rw", 15432)` registered, a second identical
`start` fails with `AlreadyExists` without touching the registry; from the
empty registry the same `start` succeeds with the advertised ports. -/
theorem C2_start_idempotent_per_tuple_witness :
    (start_port_forward (some 9) c2Reg "service" "pg-rw" "default" 15432 5432
      = (Except.error PFError.alreadyExists, c2Reg, false)) ∧
    (∃ info,
      (start_port_forward (some 9) [] "service" "pg-rw" "default" 15432 5432).1
        = Except.ok info ∧
      info.local_port = 15432 ∧
      info.remote_port = 5432 ∧
      info.status = "running" ∧
      countKey (start_port_forward (some 9) [] "service" "pg-rw" "default"
          15432 5432).2.1 "service-default-pg-rw-15432" = 1 ∧
      (start_port_forward (some 9) [] "service" "pg-rw" "default" 15432 5432).2.2
        = true) :=
  ⟨(C2_start_idempotent_per_tuple (some 9) 9 c2Reg "service" "pg-rw" "default"
      15432 5432).1 (by decide),
   (C2_start_idempotent_per_tuple (some 9) 9 [] "service" "pg-rw" "default"
      15432 5432).2 (by decide)⟩

/-- C5: `stop` on an unregistered id fails with `NotFound` and leaves the
registry unchanged; on a registered id the entry is removed from the
registry unconditionally (the resulting registry is the erased one whatever
the kill outcome), and a kill failure is propagated to the caller. -/
theorem C5_stop_removes_and_propagates (killOk : Nat → Bool) (st : Registry)
    (id : String) (h : PortForwardHandle) (pid : Nat) :
    (st.lookup id = none →
      stop_port_forward killOk st id = (Except.error PFError.notFound, st)) ∧
    (st.lookup id = some h →
      (stop_port_forward killOk st id).2 = eraseKey st id ∧
      (h.process = some pid → killOk pid = false →
        (stop_port_forward killOk st id).1 = Except.error PFError.killFailed)) := by
  constructor
  · intro hn
    simp [stop_port_forward, hn]
  · intro hs
    constructor
    · rcases hproc : h.process with _ | p
      · simp [stop_port_forward, hs, hproc]
      · by_cases hk : killOk p <;> simp [stop_port_forward, hs, hproc, hk]
    · intro hp hk
      simp [stop_port_forward, hs, hp, hk]

/-- Witness for C5: stopping the absent id `"b"` fails with `NotFound` and
leaves `c5Reg` unchanged; stopping `"a"` with a failing kill empties the
registry yet reports the kill failure. -/
theorem C5_stop_removes_and_propagates_witness :
    stop_port_forward (fun _ => false) c5Reg "b"
      = (Except.error PFError.notFound, c5Reg) ∧
    (stop_port_forward (fun _ => false) c5Reg "a").2 = eraseKey c5Reg "a" ∧
    (stop_port_forward (fun _ => false) c5Reg "a").1
      = Except.error PFError.killFailed :=
  ⟨(C5_stop_removes_and_propagates (fun _ => false) c5Reg "b" c5Handle 2).1
     (by decide),
   ((C5_stop_removes_and_propagates (fun _ => false) c5Reg "a" c5Handle 2).2
     (by decide)).1,
   ((C5_stop_removes_and_propagates (fun _ => false) c5Reg "a" c5Handle 2).2
     (by decide)).2 rfl rfl⟩

/-- C6: `send_input` for a session id with no registered inbound sender —
one never created, or one whose sender was removed by `close_session` —
returns the `SessionNotFound` error (the embedding is a total function, so
no panic is possible, and the error is always signalled). -/
theorem C6_send_after_close_fails (sendOk : Nat → Bool) (st : ShellState)
    (session_id data : String) :
    (st.stdin_senders.lookup session_id = none →
      send_input sendOk st session_id data
        = Except.error ShellError.sessionNotFound) ∧
    send_input sendOk (close_session st session_id).2 session_id data
      = Except.error ShellError.sessionNotFound := by
  constructor
  · intro h
    simp [send_input, h]
  · simp [send_input, close_session, lookup_eraseKey]

/-- Witness for C6: sending to the never-created id `"t"` fails with
`SessionNotFound`, and sending to `"s"` right after `close_session` fails
the same way. -/
theorem C6_send_after_close_fails_witness :
    send_input (fun _ => true) c6State "t" "ls\n"
      = Except.error ShellError.sessionNotFound ∧
    send_input (fun _ => true) (close_session c6State "s").2 "s" "ls\n"
      = Except.error ShellError.sessionNotFound :=
  ⟨(C6_send_after_close_fails (fun _ => true) c6State "t" "ls\n").1 (by decide),
   (C6_send_after_close_fails (fun _ => true) c6State "s" "ls\n").2⟩

/-- C7: when the pod's phase is not `Running`, or the resolved target
container does not report `ready = true`, `start_session` fails before any
exec attempt: the error is the corresponding validation failure, the exec
trace is empty (the attach collaborator was never invoked), and the manager
state is returned unchanged (no session id, stdin sender or pump task is
registered). -/
theorem C7_validation_precedes_attach (execOk : String → Bool)
    (st : ShellState) (session_id : String) (pod : Pod)
    (container shell : Option String)
    (h : podPhase pod ≠ "Running" ∨
      ∃ tc, resolveContainer pod container = some tc ∧
        containerReady pod tc = false) :
    start_session execOk st session_id pod container shell
        = (Except.error ShellError.notRunning, st, []) ∨
    start_session execOk st session_id pod container shell
        = (Except.error ShellError.containerNotReady, st, []) := by
  by_cases hp : podPhase pod = "Running"
  · rcases h with h | ⟨tc, hres, hready⟩
    · exact absurd hp h
    · right
      simp [start_session, hp, hres, hready]
  · left
    simp [start_session, hp]

/-- Witness for C7: `start_session` on the `Pending` pod fails with no exec
attempt and no state change. -/
theorem C7_validation_precedes_attach_witness :
    start_session (fun _ => true) ⟨[], []⟩ "sid" pendingPod none none
        = (Except.error ShellError.notRunning, (⟨[], []⟩ : ShellState), []) ∨
    start_session (fun _ => true) ⟨[], []⟩ "sid" pendingPod none none
        = (Except.error ShellError.containerNotReady, (⟨[], []⟩ : ShellState), []) :=
  C7_validation_precedes_attach (fun _ => true) ⟨[], []⟩ "sid" pendingPod
    none none (Or.inl (by decide))

/-- C4: `list` prunes the registry to exactly the entries whose subprocess
still runs, returns exactly the descriptors of the surviving entries, and
in particular an entry whose subprocess has exited is afterwards absent
both from the registry and from the returned descriptor collection. The
hypotheses `hkeys` and `hid` are the registry invariants maintained by
`start_port_forward` (one binding per id, the stored info carrying its own
id). -/
theorem C4_list_prunes_dead_entries (tryWait : Nat → TryWaitResult)
    (st : Registry) (e : String × PortForwardHandle) (pid : Nat)
    (hmem : e ∈ st)
    (hkeys : (st.map fun p => p.1).Nodup)
    (hid : ∀ p ∈ st, p.2.info.id = p.1)
    (hp : e.2.process = some pid)
    (hx : tryWait pid = TryWaitResult.exited) :
    (∀ p, p ∈ (list_port_forwards tryWait st).2 ↔
      (p ∈ st ∧ handleAlive tryWait p.2 = true)) ∧
    (list_port_forwards tryWait st).1
      = (list_port_forwards tryWait st).2.map (fun p => p.2.info) ∧
    e ∉ (list_port_forwards tryWait st).2 ∧
    e.2.info ∉ (list_port_forwards tryWait st).1 := by
  have hdead : handleAlive tryWait e.2 = false := by
    simp [handleAlive, hp, hx]
  have hmemf : ∀ p, p ∈ (list_port_forwards tryWait st).2 ↔
      (p ∈ st ∧ handleAlive tryWait p.2 = true) := by
    intro p
    simpa [list_port_forwards] using List.mem_filter
  refine ⟨hmemf, rfl, ?_, ?_⟩
  · intro hin
    rw [hmemf e] at hin
    rw [hdead] at hin
    exact Bool.false_ne_true hin.2
  · intro hin
    have : ∃ p ∈ (list_port_forwards tryWait st).2, p.2.info = e.2.info := by
      simpa [list_port_forwards] using hin
    obtain ⟨p, hpmem, hpinfo⟩ := this
    have hpst : p ∈ st ∧ handleAlive tryWait p.2 = true := (hmemf p).mp hpmem
    have hkey : p.1 = e.1 := by
      have h1 := hid p hpst.1
      have h2 := hid e hmem
      rw [← h1, ← h2, hpinfo]
    have hpe : p = e :=
      List.inj_on_of_nodup_map hkeys hpst.1 hmem hkey
    rw [hpe, hdead] at hpst
    exact Bool.false_ne_true hpst.2

/-- Witness for C4: with `"id1"`'s subprocess reported exited, `list`
drops the entry from the registry and its descriptor from the returned
collection. -/
theorem C4_list_prunes_dead_entries_witness :
    ("id1", c4Handle) ∉ (list_port_forwards (fun _ => TryWaitResult.exited) c4Reg).2 ∧
    c4Handle.info ∉ (list_port_forwards (fun _ => TryWaitResult.exited) c4Reg).1 :=
  (C4_list_prunes_dead_entries (fun _ => TryWaitResult.exited) c4Reg
    ("id1", c4Handle) 5 (by decide) (by decide) (by decide) rfl rfl).2.2

/-- Scanning the escaped body followed by the closing quote recovers the
original characters exactly, with nothing left unconsumed. -/
theorem scanQuoted_escapeQuotes (l : List Char) :
    scanQuoted (escapeQuotes l ++ ['"']) = some (l, []) := by
  induction l with
  | nil => rfl
  | cons c rest ih =>
    by_cases h : c = '"'
    · subst h
      simp [escapeQuotes, scanQuoted, ih]
    · rw [escapeQuotes, if_neg h, List.cons_append, scanQuoted.eq_def]
      simp [h, ih]

/-- C9: `quote_identifier` wraps the identifier in double quotes with every
embedded double quote doubled, and a standard quoted-identifier scan of the
result consumes the entire output and yields back exactly the original
identifier — so a name containing a quote character cannot break out of the
quoted identifier. -/
theorem C9_quote_identifier_no_breakout (identifier : String) :
    (quote_identifier identifier).data
      = '"' :: (escapeQuotes identifier.data ++ ['"']) ∧
    parseQuoted (quote_identifier identifier).data
      = some (identifier.data, []) := by
  have hdata : (quote_identifier identifier).data
      = '"' :: (escapeQuotes identifier.data ++ ['"']) := by
    simp [quote_identifier, String.data_append]
  refine ⟨hdata, ?_⟩
  rw [hdata]
  simpa [parseQuoted] using scanQuoted_escapeQuotes identifier.data
